import Mathlib

/-
Verification development for the ruqe-ts container library.

The embedding translates src/panic.ts, src/option.ts and src/result.ts into
Lean: the two container classes become two-constructor inductives, each
TypeScript method becomes a Lean function on the corresponding inductive, and
the host language's `throw` is made explicit by letting the two `unwrap`
operations return `Except`.  A thrown value is either a freshly constructed
`Panic` instance (as in `None.unwrap`, which executes
`throw new Panic(...)`) or the raw held error value itself (as in
`Err.unwrap`, which executes `throw this._error`); the inductive `Thrown`
keeps these two shapes apart so that the asymmetry between the two failure
paths is observable in the embedding.
-/

namespace Ruqe

/-- Embedding of src/panic.ts: `class Panic extends Error`.  The constructor
receives a message and sets the instance's `name` field to the literal
string "Panic"; the stack-trace bookkeeping has no observable effect on the
fields modelled here. -/
structure Panic where
  name : String
  message : String
deriving DecidableEq

/-- The TypeScript constructor call `new Panic(message)`: sets
`this.name = 'Panic'` and carries the given message. -/
def Panic.new (message : String) : Panic :=
  ⟨"Panic", message⟩

/-- A value thrown by one of the container operations: either a `Panic`
instance constructed at the throw site, or the raw held error value of type
`E` rethrown as-is (this is what `throw this._error` in `Err.unwrap`
produces). -/
inductive Thrown (E : Type) where
  | panicSig (p : Panic)
  | raw (e : E)
deriving DecidableEq

/-- The `instanceof Panic` test on a thrown value, for payload types `E`
whose values are not themselves `Panic` instances (such as strings and
numbers): true exactly when the thrown value was constructed via
`new Panic(...)`. -/
def Thrown.isPanicInstance {E : Type} : Thrown E → Bool
  | .panicSig _ => true
  | .raw _ => false

/-- Embedding of src/option.ts `type SomeArm<R, T> = (value: T) => R`. -/
abbrev SomeArm (R T : Type) : Type := T → R

/-- Embedding of src/option.ts `type NoneArm<R> = () => R`. -/
abbrev NoneArm (R : Type) : Type := Unit → R

/-- The pattern object `{ some: SomeArm<R, T>; none: NoneArm<R> }` passed to
`Option.match`. -/
structure OptionPattern (R T : Type) where
  some : SomeArm R T
  none : NoneArm R

/-- Embedding of src/option.ts: `Option<T>` with its two leaf classes
`Some<T>` (field `_value : T`) and `None<T>` (field `_value = undefined`).
The class hierarchy is closed (exactly these two variants exist), so it is
rendered as a two-constructor inductive. -/
inductive Option (T : Type) where
  | Some (value : T)
  | None
deriving DecidableEq

/-- Embedding of `Some.unwrap` / `None.unwrap` (src/option.ts lines 57-59 and
80-82): `Some` returns `this._value`; `None` executes
`throw new Panic("called \x60Option::unwrap()\x60 on a \x60None\x60 value")`. -/
def Option.unwrap {T : Type} : Option T → Except Panic T
  | .Some value => .ok value
  | .None => .error (Panic.new ("called `Option::unwrap()` on a `None` value"))

/-- Embedding of `Some.match` / `None.match` (src/option.ts lines 61-63 and
84-86): `Some` returns `pattern.some(this._value)`; `None` returns
`pattern.none()`.  Named `match'` because `match` is reserved in Lean. -/
def Option.match' {R T : Type} : Option T → OptionPattern R T → R
  | .Some value, pattern => pattern.some value
  | .None, pattern => pattern.none ()

/-- Embedding of `Some.isSome` / `None.isSome` (src/option.ts lines 65-67 and
88-90). -/
def Option.isSome {T : Type} : Option T → Bool
  | .Some _ => true
  | .None => false

/-- Embedding of `Some.isNone` / `None.isNone` (src/option.ts lines 69-71 and
92-94). -/
def Option.isNone {T : Type} : Option T → Bool
  | .Some _ => false
  | .None => true

/-- Embedding of src/result.ts `type OkArm<R, T> = (value: T) => R`. -/
abbrev OkArm (R T : Type) : Type := T → R

/-- Embedding of src/result.ts `type ErrArm<R, E> = (error: E) => R`. -/
abbrev ErrArm (R E : Type) : Type := E → R

/-- The pattern object `{ ok: OkArm<R, T>; err: ErrArm<R, E> }` passed to
`Result.match`. -/
structure ResultPattern (R T E : Type) where
  ok : OkArm R T
  err : ErrArm R E

/-- Embedding of src/result.ts: `Result<T, E>` with its two leaf classes
`Ok<T, E>` (field `_value : T`, `_error = undefined`) and `Err<T, E>`
(field `_error : E`, `_value = undefined`). -/
inductive Result (T E : Type) where
  | Ok (value : T)
  | Err (error : E)
deriving DecidableEq

/-- Embedding of `Ok.isOk` / `Err.isOk` (src/result.ts lines 97-99 and
134-136). -/
def Result.isOk {T E : Type} : Result T E → Bool
  | .Ok _ => true
  | .Err _ => false

/-- Embedding of `Ok.isErr` / `Err.isErr` (src/result.ts lines 101-103 and
138-140). -/
def Result.isErr {T E : Type} : Result T E → Bool
  | .Ok _ => false
  | .Err _ => true

/-- Embedding of `Ok.ok` / `Err.ok` (src/result.ts lines 105-107 and
142-144): `Ok` returns `new Some(this._value)`; `Err` returns
`new None<T>()`. -/
def Result.ok {T E : Type} : Result T E → Option T
  | .Ok value => .Some value
  | .Err _ => .None

/-- Embedding of `Ok.err` / `Err.err` (src/result.ts lines 109-111 and
146-148): `Ok` returns `new None<E>()`; `Err` returns
`new Some(this._error)`. -/
def Result.err {T E : Type} : Result T E → Option E
  | .Ok _ => .None
  | .Err error => .Some error

/-- Embedding of `Ok.match` / `Err.match` (src/result.ts lines 113-115 and
150-152): `Ok` returns `pattern.ok(this._value)`; `Err` returns
`pattern.err(this._error)`. -/
def Result.match' {R T E : Type} : Result T E → ResultPattern R T E → R
  | .Ok value, pattern => pattern.ok value
  | .Err error, pattern => pattern.err error

/-- Embedding of `Ok.unwrap` / `Err.unwrap` (src/result.ts lines 117-119 and
154-156): `Ok` returns `this._value`; `Err` executes `throw this._error`,
rethrowing the raw held error value itself, not a `Panic` built from it. -/
def Result.unwrap {T E : Type} : Result T E → Except (Thrown E) T
  | .Ok value => .ok value
  | .Err error => .error (.raw error)

/-- A small universe of JavaScript runtime values, used where a claim is
about a concrete payload such as `undefined`: in TypeScript,
`new Some(undefined)` stores `undefined` in `_value` and the variant tag
stays `Some`. -/
inductive JSValue where
  | undefined
  | num (n : Int)
  | str (s : String)
deriving DecidableEq

/-
State-passing renderings of the read operations, written for the purity and
idempotence claim.  Every field of `Some`, `None`, `Ok` and `Err` is declared
`readonly` and no method body of src/option.ts or src/result.ts contains an
assignment, so the post-state of each method call is the receiver unchanged;
the wrappers below return the method's result together with that post-state.
-/

/-- State-passing form of `Option.isSome`: result plus post-state of the
receiver. -/
def Option.isSomeCall {T : Type} (o : Option T) : Bool × Option T :=
  (o.isSome, o)

/-- State-passing form of `Option.isNone`. -/
def Option.isNoneCall {T : Type} (o : Option T) : Bool × Option T :=
  (o.isNone, o)

/-- State-passing form of `Option.unwrap`. -/
def Option.unwrapCall {T : Type} (o : Option T) : Except Panic T × Option T :=
  (o.unwrap, o)

/-- State-passing form of `Option.match`. -/
def Option.matchCall {R T : Type} (o : Option T) (p : OptionPattern R T) :
    R × Option T :=
  (o.match' p, o)

/-- State-passing form of `Result.isOk`. -/
def Result.isOkCall {T E : Type} (r : Result T E) : Bool × Result T E :=
  (r.isOk, r)

/-- State-passing form of `Result.isErr`. -/
def Result.isErrCall {T E : Type} (r : Result T E) : Bool × Result T E :=
  (r.isErr, r)

/-- State-passing form of `Result.ok`. -/
def Result.okCall {T E : Type} (r : Result T E) : Option T × Result T E :=
  (r.ok, r)

/-- State-passing form of `Result.err`. -/
def Result.errCall {T E : Type} (r : Result T E) : Option E × Result T E :=
  (r.err, r)

/-- State-passing form of `Result.unwrap`. -/
def Result.unwrapCall {T E : Type} (r : Result T E) :
    Except (Thrown E) T × Result T E :=
  (r.unwrap, r)

/-- State-passing form of `Result.match`. -/
def Result.matchCall {R T E : Type} (r : Result T E) (p : ResultPattern R T E) :
    R × Result T E :=
  (r.match' p, r)

/-- C1: evaluation at the failing input.  `new Err("boom").unwrap()` throws
the raw held string "boom" itself (`throw this._error`), which is not an
instance of `Panic` and is not any `Panic` constructed at the throw site, so
no unrecoverable-error signal of the `Panic` type is raised — contrary to
the claim and to the code's own doc comments on `Result.unwrap` and
`Panic`. -/
theorem err_unwrap_boom_throws_raw_string :
    (Result.Err ("boom") : Result Nat String).unwrap
      = Except.error (Thrown.raw ("boom"))
    ∧ Thrown.isPanicInstance (Thrown.raw ("boom") : Thrown String) = false
    ∧ ∀ p : Panic, (Thrown.raw ("boom") : Thrown String) ≠ Thrown.panicSig p := by
  refine ⟨rfl, rfl, fun p h => ?_⟩
  exact Thrown.noConfusion h

/-- C2 counterexample: unwrapping the `None` variant raises a `Panic` whose
message is the source literal "called \x60Option::unwrap()\x60 on a
\x60None\x60 value", which differs from the message the claim states, so the
raised signal is not the one the claim describes. -/
theorem none_unwrap_message_not_as_claimed :
    (Option.None : Option Nat).unwrap
      = Except.error (Panic.new ("called `Option::unwrap()` on a `None` value"))
    ∧ Panic.new ("called `Option::unwrap()` on a `None` value")
        ≠ Panic.new ("called unwrap on an absent value")
    ∧ (Option.None : Option Nat).unwrap
        ≠ Except.error (Panic.new ("called unwrap on an absent value")) := by
  refine ⟨rfl, by decide, fun h => ?_⟩
  exact absurd (congrArg Panic.message (Except.error.inj h)) (by decide)

/-- C2 (amended): for every payload type, `None.unwrap()` raises the
unrecoverable-error signal `Panic` (its `name` field is the literal
"Panic") carrying exactly the literal message
"called \x60Option::unwrap()\x60 on a \x60None\x60 value". -/
theorem none_unwrap_panics_with_source_message : ∀ (T : Type),
    (Option.None : Option T).unwrap
      = Except.error (Panic.new ("called `Option::unwrap()` on a `None` value"))
    ∧ (Panic.new ("called `Option::unwrap()` on a `None` value")).name = "Panic"
    ∧ (Panic.new ("called `Option::unwrap()` on a `None` value")).message
        = "called `Option::unwrap()` on a `None` value" := by
  intro T
  exact ⟨rfl, rfl, rfl⟩

/-- C3: the two unwrap failure paths are asymmetric.  For every error value
`e`, `Err(e).unwrap()` throws the held error value `e` itself (the thrown
value is `Thrown.raw e`, never a `Panic` constructed at the throw site),
while `None.unwrap()` always throws a value of the dedicated `Panic` type
(the error component of its `Except` is of type `Panic`). -/
theorem unwrap_failure_asymmetry : ∀ (T E : Type) (e : E),
    (Result.Err e : Result T E).unwrap = Except.error (Thrown.raw e)
    ∧ (∀ p : Panic, (Thrown.raw e : Thrown E) ≠ Thrown.panicSig p)
    ∧ (Option.None : Option T).unwrap
        = Except.error (Panic.new ("called `Option::unwrap()` on a `None` value")) := by
  intro T E e
  exact ⟨rfl, fun p h => Thrown.noConfusion h, rfl⟩

/-- C4: `match` selects exactly one of its two callbacks according to the
variant tag, passes it the held payload, and returns that callback's result
unchanged: `Some(v).match = pattern.some(v)`, `None.match = pattern.none()`,
`Ok(v).match = pattern.ok(v)`, `Err(e).match = pattern.err(e)`.  In this
pure embedding the equations exhibit the result as a single application of
the selected callback, so exactly one callback is invoked, exactly once. -/
theorem match_invokes_exactly_one_callback : ∀ (T E R : Type) (v : T) (e : E)
    (f : SomeArm R T) (g : NoneArm R) (fo : OkArm R T) (ge : ErrArm R E),
    (Option.Some v).match' (OptionPattern.mk f g) = f v
    ∧ (Option.None : Option T).match' (OptionPattern.mk f g) = g ()
    ∧ (Result.Ok v : Result T E).match' (ResultPattern.mk fo ge) = fo v
    ∧ (Result.Err e : Result T E).match' (ResultPattern.mk fo ge) = ge e := by
  intros
  exact ⟨rfl, rfl, rfl, rfl⟩

/-- C5: the conversions from `Result` to `Option` satisfy
`Ok(v).ok() = Some(v)`, `Ok(v).err() = None`, `Err(e).ok() = None` and
`Err(e).err() = Some(e)`. -/
theorem ok_err_conversions : ∀ (T E : Type) (v : T) (e : E),
    (Result.Ok v : Result T E).ok = Option.Some v
    ∧ (Result.Ok v : Result T E).err = Option.None
    ∧ (Result.Err e : Result T E).ok = Option.None
    ∧ (Result.Err e : Result T E).err = Option.Some e := by
  intro T E v e
  exact ⟨rfl, rfl, rfl, rfl⟩

/-- C6: `Ok(v).isOk() = true`, `Ok(v).isErr() = false`, `Ok(v).unwrap()`
returns `v` without throwing, `Err(e).isOk() = false` and
`Err(e).isErr() = true`. -/
theorem result_flags_and_ok_unwrap : ∀ (T E : Type) (v : T) (e : E),
    (Result.Ok v : Result T E).isOk = true
    ∧ (Result.Ok v : Result T E).isErr = false
    ∧ (Result.Ok v : Result T E).unwrap = Except.ok v
    ∧ (Result.Err e : Result T E).isOk = false
    ∧ (Result.Err e : Result T E).isErr = true := by
  intro T E v e
  exact ⟨rfl, rfl, rfl, rfl, rfl⟩

/-- C7: `Some(v).isSome() = true`, `Some(v).isNone() = false`,
`Some(v).unwrap()` returns `v` without throwing, `None.isSome() = false`
and `None.isNone() = true`. -/
theorem option_flags_and_some_unwrap : ∀ (T : Type) (v : T),
    (Option.Some v).isSome = true
    ∧ (Option.Some v).isNone = false
    ∧ (Option.Some v).unwrap = Except.ok v
    ∧ (Option.None : Option T).isSome = false
    ∧ (Option.None : Option T).isNone = true := by
  intro T v
  exact ⟨rfl, rfl, rfl, rfl, rfl⟩

/-- C8: round trip through the `ok` conversion: for every value `v`,
`Ok(v).ok().unwrap()` returns `v` without throwing; in particular
`Ok(5).ok() = Some(5)` and unwrapping it yields `5`. -/
theorem ok_conversion_roundtrip : ∀ (T E : Type) (v : T),
    ((Result.Ok v : Result T E).ok).unwrap = Except.ok v
    ∧ (Result.Ok 5 : Result Nat String).ok = Option.Some 5
    ∧ ((Result.Ok 5 : Result Nat String).ok).unwrap = Except.ok 5 := by
  intro T E v
  exact ⟨rfl, rfl, rfl⟩

/-- C9: every read operation is pure and idempotent.  In the state-passing
rendering of the methods (all fields are `readonly` and no method body
assigns, so each call returns the receiver unchanged as its post-state),
every operation leaves the container's variant and payload exactly as
constructed, and a second call on the post-state returns the same result as
the first call. -/
theorem read_operations_pure_and_idempotent : ∀ (T E R : Type) (o : Option T)
    (r : Result T E) (po : OptionPattern R T) (pr : ResultPattern R T E),
    (o.isSomeCall.2 = o ∧ (o.isSomeCall.2).isSomeCall.1 = o.isSomeCall.1)
    ∧ (o.isNoneCall.2 = o ∧ (o.isNoneCall.2).isNoneCall.1 = o.isNoneCall.1)
    ∧ (o.unwrapCall.2 = o ∧ (o.unwrapCall.2).unwrapCall.1 = o.unwrapCall.1)
    ∧ ((o.matchCall po).2 = o
        ∧ ((o.matchCall po).2).matchCall po = o.matchCall po)
    ∧ (r.isOkCall.2 = r ∧ (r.isOkCall.2).isOkCall.1 = r.isOkCall.1)
    ∧ (r.isErrCall.2 = r ∧ (r.isErrCall.2).isErrCall.1 = r.isErrCall.1)
    ∧ (r.okCall.2 = r ∧ (r.okCall.2).okCall.1 = r.okCall.1)
    ∧ (r.errCall.2 = r ∧ (r.errCall.2).errCall.1 = r.errCall.1)
    ∧ (r.unwrapCall.2 = r ∧ (r.unwrapCall.2).unwrapCall.1 = r.unwrapCall.1)
    ∧ ((r.matchCall pr).2 = r
        ∧ ((r.matchCall pr).2).matchCall pr = r.matchCall pr) := by
  intros
  exact ⟨⟨rfl, rfl⟩, ⟨rfl, rfl⟩, ⟨rfl, rfl⟩, ⟨rfl, rfl⟩, ⟨rfl, rfl⟩,
    ⟨rfl, rfl⟩, ⟨rfl, rfl⟩, ⟨rfl, rfl⟩, ⟨rfl, rfl⟩, ⟨rfl, rfl⟩⟩

/-- C10: the variant tag alone, never the payload, determines each
operation's success behaviour: a `Some` constructed with the JavaScript
value `undefined` still reports present, not absent, and `unwrap` returns
`undefined` without raising; and the same holds for every payload value. -/
theorem some_undefined_behaves_as_present :
    (Option.Some JSValue.undefined).isSome = true
    ∧ (Option.Some JSValue.undefined).isNone = false
    ∧ (Option.Some JSValue.undefined).unwrap = Except.ok JSValue.undefined
    ∧ ∀ v : JSValue, (Option.Some v).isSome = true
        ∧ (Option.Some v).isNone = false
        ∧ (Option.Some v).unwrap = Except.ok v := by
  exact ⟨rfl, rfl, rfl, fun v => ⟨rfl, rfl, rfl⟩⟩

end Ruqe
